import Mathlib

/-!
A verification development for the UMR dashboard (`src/app.py`): a shallow
embedding of its derived-metric pipeline — year/region filtering, top/bottom
ranking, year-over-year growth, gap and ratio to the national baseline, and
the heatmap aggregation — together with theorems settling the frozen claims
about that pipeline.

Pandas float arithmetic is modelled over exact rationals extended with the
IEEE special values (`+inf`, `-inf`, `nan`), so that the behaviour of
unguarded divisions and of `NaN` comparisons is captured faithfully.
-/

namespace UMR

/-- IEEE-754-style extended value over exact rationals: a pandas float cell is
either a finite rational, `+inf`, `-inf` or `NaN`.  Signed zero is not
modelled (it never arises from the operations embedded here, whose operands
are data values and the constants 1 and 100). -/
inductive FVal where
  | fin : ℚ → FVal
  | pinf : FVal
  | ninf : FVal
  | nan : FVal
  deriving DecidableEq, Repr

/-- IEEE subtraction: `x - NaN = NaN`, `fin - ±inf = ∓inf`, `inf - inf = NaN`. -/
def FVal.sub : FVal → FVal → FVal
  | .fin a, .fin b => .fin (a - b)
  | .fin _, .pinf => .ninf
  | .fin _, .ninf => .pinf
  | .pinf, .fin _ => .pinf
  | .ninf, .fin _ => .ninf
  | .pinf, .ninf => .pinf
  | .ninf, .pinf => .ninf
  | _, _ => .nan

/-- IEEE division (positive zero): `a/0 = ±inf` for `a ≠ 0`, `0/0 = NaN`,
`fin/±inf = 0`, `±inf/fin` keeps the sign, `inf/inf = NaN`, NaN propagates. -/
def FVal.div : FVal → FVal → FVal
  | .fin a, .fin b =>
      if b = 0 then (if a = 0 then .nan else if 0 < a then .pinf else .ninf)
      else .fin (a / b)
  | .fin _, .pinf => .fin 0
  | .fin _, .ninf => .fin 0
  | .pinf, .fin b => if 0 ≤ b then .pinf else .ninf
  | .ninf, .fin b => if 0 ≤ b then .ninf else .pinf
  | _, _ => .nan

/-- IEEE multiplication: `0 * ±inf = NaN`, signs multiply, NaN propagates. -/
def FVal.mul : FVal → FVal → FVal
  | .fin a, .fin b => .fin (a * b)
  | .fin a, .pinf => if a = 0 then .nan else if 0 < a then .pinf else .ninf
  | .fin a, .ninf => if a = 0 then .nan else if 0 < a then .ninf else .pinf
  | .pinf, .fin b => if b = 0 then .nan else if 0 < b then .pinf else .ninf
  | .ninf, .fin b => if b = 0 then .nan else if 0 < b then .ninf else .pinf
  | .pinf, .pinf => .pinf
  | .pinf, .ninf => .ninf
  | .ninf, .pinf => .ninf
  | .ninf, .ninf => .pinf
  | _, _ => .nan

/-- IEEE `>` as a Bool: any comparison against `NaN` is `false`. -/
def FVal.gtb : FVal → FVal → Bool
  | .fin a, .fin b => decide (b < a)
  | .pinf, .fin _ => true
  | .pinf, .ninf => true
  | .fin _, .ninf => true
  | _, _ => false

/-- IEEE `==` as a Bool: `NaN == x` is `false`. -/
def FVal.eqb : FVal → FVal → Bool
  | .fin a, .fin b => decide (a = b)
  | .pinf, .pinf => true
  | .ninf, .ninf => true
  | _, _ => false

/-- Whether the value is `NaN` (used by `dropna`). -/
def FVal.isNan : FVal → Bool
  | .nan => true
  | _ => false

/-- One row of the loaded table (`load_data`, app.py lines 56-67): `REGION`
is a trimmed string, `YEAR` a nullable integer (`Int64` after
`pd.to_numeric(..., errors="coerce")`; `none` models `pd.NA`), `SALARY` a
parsed numeric value.  Rows whose salary failed to parse play no role in any
claim and are not modelled. -/
structure Row where
  region : String
  year : Option ℤ
  salary : ℚ
  deriving DecidableEq, Repr

/-- The mask `df["YEAR"] == y0` (app.py line 102): a `pd.NA` year compares
to `NA`, which boolean masking treats as `False`. -/
def yearEqB (y0 : ℤ) (r : Row) : Bool :=
  match r.year with
  | some y => decide (y = y0)
  | none => false

/-- The mask `(df["YEAR"] >= lo) & (df["YEAR"] <= hi)` (app.py line 104);
a `pd.NA` year is masked out. -/
def yearInB (lo hi : ℤ) (r : Row) : Bool :=
  match r.year with
  | some y => decide (lo ≤ y) && decide (y ≤ hi)
  | none => false

/-- ASCII upper-casing of one character, as Python's `str.upper()` acts on
the ASCII region identifiers of this dataset. -/
def upChar (c : Char) : Char :=
  if 'a' ≤ c && c ≤ 'z' then Char.ofNat (c.toNat - 32) else c

/-- ASCII upper-casing of a string (`str.upper()`). -/
def upStr (s : String) : String := ⟨s.data.map upChar⟩

/-- `df["REGION"].str.upper() == "INDONESIA"` (app.py lines 85, 107, 372,
580): the reserved national identifier, compared case-insensitively. -/
def isNational (r : Row) : Bool :=
  upStr r.region == "INDONESIA"

/-- The year filter, app.py lines 101-104: an exact-equality branch when
`year_from == year_to`, the generic inclusive range otherwise. -/
def df_year (df : List Row) (lo hi : ℤ) : List Row :=
  if lo = hi then df.filter (yearEqB lo) else df.filter (yearInB lo hi)

/-- `df_national`, app.py line 107 (also `df_national_avg`, lines 580 and
732): national rows of the year-filtered table. -/
def df_national (df : List Row) (lo hi : ℤ) : List Row :=
  (df_year df lo hi).filter isNational

/-- Distinct strings in order of first appearance (`unique`). -/
def dedupAux (seen : List String) : List String → List String
  | [] => []
  | a :: rest =>
      if seen.contains a then dedupAux seen rest
      else a :: dedupAux (a :: seen) rest

/-- `prov_list`, app.py line 85: the distinct non-national region names
(kept in order of first appearance; the sort applied in the source does not
affect any membership fact used below). -/
def prov_list (df : List Row) : List String :=
  dedupAux [] ((df.filter (fun r => !isNational r)).map (·.region))

/-- The empty-selection default, app.py lines 109-110: an empty province
selection means "all provinces". -/
def effectiveSel (df : List Row) (sel0 : List String) : List String :=
  if sel0.isEmpty then prov_list df else sel0

/-- `df_prov`, app.py lines 112-113: year-filtered rows whose region is in
the (defaulted) selection, excluding the national identifier. -/
def df_prov (df : List Row) (lo hi : ℤ) (sel0 : List String) : List Row :=
  (((df_year df lo hi).filter
      (fun r => (effectiveSel df sel0).contains r.region)).filter
    (fun r => !isNational r))

/-- `prov_filtered`, app.py lines 255-259: the input to the Top/Bottom-N by
actual value ranking — the full table restricted to the year range and to
`selected_prov + ["INDONESIA"]`.  Note it does not depend on the
`include_indonesia` flag. -/
def prov_filtered (df : List Row) (sel : List String) (lo hi : ℤ) : List Row :=
  df.filter (fun r => yearInB lo hi r && (sel ++ ["INDONESIA"]).contains r.region)

/-! ### Stable sorting and top/bottom-N selection

`DataFrame.nlargest(n, col)` (app.py lines 265-266, 446-447, 662-663,
826-827) returns the `n` largest rows with `keep="first"`: it repeatedly
selects the earliest row attaining the current maximum.  `oInsert`/`iSort`
is a stable insertion sort used to state the spec's reading "sort the
column descending/ascending and take the first N rows". -/

/-- Insert `a` into `l`, before the first element `b` with `le a b`. -/
def oInsert (le : α → α → Bool) (a : α) : List α → List α
  | [] => [a]
  | b :: l => if le a b then a :: b :: l else b :: oInsert le a l

/-- Stable insertion sort by the Bool-valued relation `le`
("goes before or ties"). -/
def iSort (le : α → α → Bool) : List α → List α
  | [] => []
  | a :: l => oInsert le a (iSort le l)

/-- Split off the best element under `le`, keeping the earliest among ties
(`keep="first"`), together with the remaining list in its original order. -/
def firstBestSplit (le : α → α → Bool) : List α → Option (α × List α)
  | [] => none
  | a :: rest =>
      match firstBestSplit le rest with
      | none => some (a, [])
      | some (m, rem) => if le a m then some (a, rest) else some (m, a :: rem)

/-- Select the best `n` elements by repeatedly extracting the earliest
best one: the operational model of pandas `nlargest`/`nsmallest` with
`keep="first"`. -/
def takeBest (le : α → α → Bool) : ℕ → List α → List α
  | 0, _ => []
  | n + 1, xs =>
      match firstBestSplit le xs with
      | none => []
      | some (m, rem) => m :: takeBest le n rem

/-- Descending-by-salary order with insertion-order tie-break. -/
def salDescLe (a b : Row) : Bool := decide (b.salary ≤ a.salary)

/-- Ascending-by-salary order with insertion-order tie-break. -/
def salAscLe (a b : Row) : Bool := decide (a.salary ≤ b.salary)

/-- `nlargest(n, "SALARY")` on a row list (app.py line 265). -/
def nlargestRows (n : ℕ) (xs : List Row) : List Row := takeBest salDescLe n xs

/-- `nsmallest(n, "SALARY")` on a row list (app.py line 266). -/
def nsmallestRows (n : ℕ) (xs : List Row) : List Row := takeBest salAscLe n xs

/-- `top_df`, app.py line 265. -/
def top_df (df : List Row) (sel : List String) (lo hi : ℤ) (n : ℕ) : List Row :=
  nlargestRows n (prov_filtered df sel lo hi)

/-- `bot_df`, app.py line 266. -/
def bot_df (df : List Row) (sel : List String) (lo hi : ℤ) (n : ℕ) : List Row :=
  nsmallestRows n (prov_filtered df sel lo hi)

/-! ### Year-over-year growth (app.py lines 366-384) -/

/-- A growth-stage row: all rows of `growth_filtered` satisfy a year bound,
so their `YEAR` is a present integer. -/
structure GRow where
  region : String
  year : ℤ
  salary : ℚ
  deriving DecidableEq, Repr

/-- A row of the growth table after the change metrics are added
(`PCT_CHANGE`, `NOMINAL_CHANGE`, app.py lines 381-382). -/
structure GrowthRow where
  region : String
  year : ℤ
  salary : ℚ
  pct : FVal
  nom : FVal
  deriving DecidableEq, Repr

/-- `growth_filtered`, app.py lines 366-374: rows with
`year_from - 1 ≤ YEAR ≤ year_to` and `REGION in selected_prov`
(case-sensitive membership), concatenated with the national rows in the
same year window when `include_indonesia` is set. -/
def growth_filtered (df : List Row) (lo hi : ℤ) (sel : List String)
    (flag : Bool) : List Row :=
  df.filter (fun r => yearInB (lo - 1) hi r && sel.contains r.region)
    ++ (if flag then df.filter (fun r => isNational r && yearInB (lo - 1) hi r)
        else [])

/-- The rows of `growth_filtered` with their (always present) year pulled
out of the `Option`. -/
def gRows (df : List Row) (lo hi : ℤ) (sel : List String) (flag : Bool) :
    List GRow :=
  (growth_filtered df lo hi sel flag).filterMap
    (fun r => r.year.map (fun y => ⟨r.region, y, r.salary⟩))

/-- The lexicographic (REGION, YEAR) order of
`sort_values(["REGION", "YEAR"])`, app.py line 380. -/
def gLe (a b : GRow) : Bool :=
  decide (a.region < b.region) || (a.region == b.region && decide (a.year ≤ b.year))

/-- `Series.pct_change() * 100` on one step (app.py line 381): pandas
computes `cur / prev - 1`; a zero `prev` therefore yields `±inf` (or `NaN`
for `0/0`), exactly as in float arithmetic. -/
def pandasPct (p c : ℚ) : FVal :=
  (((FVal.fin c).div (FVal.fin p)).sub (FVal.fin 1)).mul (FVal.fin 100)

/-- The change metrics within one region group (app.py lines 381-382),
threading the previous salary: the first row of a group gets `NaN` for both
metrics, every later row is diffed against its predecessor. -/
def groupMetrics : Option ℚ → List GRow → List GrowthRow
  | _, [] => []
  | none, g :: rest =>
      ⟨g.region, g.year, g.salary, FVal.nan, FVal.nan⟩ ::
        groupMetrics (some g.salary) rest
  | some p, g :: rest =>
      ⟨g.region, g.year, g.salary, pandasPct p g.salary, FVal.fin (g.salary - p)⟩ ::
        groupMetrics (some g.salary) rest

/-- The distinct regions of a list, in order of first appearance. -/
def regionsIn (l : List GRow) : List String := dedupAux [] (l.map (·.region))

/-- The growth table with metrics (app.py lines 380-382): sort by
(REGION, YEAR), then apply the change metrics per `groupby("REGION")`
group.  Equal regions are contiguous after the sort, so concatenating the
per-region results reproduces the sorted row order of the source frame. -/
def growthTable (df : List Row) (lo hi : ℤ) (sel : List String)
    (flag : Bool) : List GrowthRow :=
  let L := iSort gLe (gRows df lo hi sel flag)
  (regionsIn L).flatMap (fun reg => groupMetrics none (L.filter (fun g => g.region == reg)))

/-- `pct_df`, app.py line 384: keep `YEAR ≥ year_from` and drop rows where
either change metric is `NaN` (`dropna` removes `NaN`, not `±inf`). -/
def pct_df (df : List Row) (lo hi : ℤ) (sel : List String)
    (flag : Bool) : List GrowthRow :=
  (growthTable df lo hi sel flag).filter
    (fun g => decide (lo ≤ g.year) && !g.pct.isNan && !g.nom.isNan)

/-! ### Gap and ratio to the national baseline (app.py lines 579-595 and
731-748) -/

/-- A row after the left merge with the national table on `YEAR`
(app.py lines 585-590 and 737-742): `nat` is the matched national salary,
`none` when no national row of the same year exists (pandas fills `NaN`). -/
structure MRow where
  region : String
  year : Option ℤ
  salary : ℚ
  nat : Option ℚ
  deriving DecidableEq, Repr

/-- `merge(df_national_avg[["YEAR", "SALARY"]], on="YEAR", how="left")`:
every left row is kept; each matching national row produces one output row,
and a left row with no match produces a single row with a missing national
salary. -/
def leftMergeNational (left nat : List Row) : List MRow :=
  left.flatMap (fun r =>
    let ms := nat.filter (fun n => n.year == r.year)
    if ms.isEmpty then [⟨r.region, r.year, r.salary, none⟩]
    else ms.map (fun n => ⟨r.region, r.year, r.salary, some n.salary⟩))

/-- A missing merge result is a float `NaN` in the frame. -/
def natOfOpt : Option ℚ → FVal
  | some q => FVal.fin q
  | none => FVal.nan

/-- The `STATUS` lambda of the gap table (app.py lines 593-595): float
comparisons, so a `NaN` gap falls through to "Below National Average". -/
def gapStatus (g : FVal) : String :=
  if g.gtb (.fin 0) then "Above National Average"
  else if g.eqb (.fin 0) then "Equal to National Average"
  else "Below National Average"

/-- The `STATUS` lambda of the ratio table (app.py lines 746-748), with
threshold 100. -/
def ratStatus (x : FVal) : String :=
  if x.gtb (.fin 100) then "Above National Average"
  else if x.eqb (.fin 100) then "Equal to National Average"
  else "Below National Average"

/-- A gap-table row (app.py lines 591-595). -/
structure GapRow where
  region : String
  year : Option ℤ
  salary : ℚ
  nat : Option ℚ
  gap : FVal
  status : String
  deriving DecidableEq, Repr

/-- A ratio-table row (app.py lines 744-748). -/
structure RatioRow where
  region : String
  year : Option ℤ
  salary : ℚ
  nat : Option ℚ
  ratioVal : FVal
  status : String
  deriving DecidableEq, Repr

/-- The selected-region half of the gap/ratio sections (app.py lines 579
and 731): year-filtered rows whose region is in the selection. -/
def gapBase (df : List Row) (sel : List String) (lo hi : ℤ) : List Row :=
  (df_year df lo hi).filter (fun r => sel.contains r.region)

/-- `df_gap` after the merge, `GAP` and `STATUS` (app.py lines 585-595). -/
def df_gap (df : List Row) (sel : List String) (lo hi : ℤ) : List GapRow :=
  (leftMergeNational (gapBase df sel lo hi) (df_national df lo hi)).map
    (fun m =>
      let g := (FVal.fin m.salary).sub (natOfOpt m.nat)
      ⟨m.region, m.year, m.salary, m.nat, g, gapStatus g⟩)

/-- `df_ratio` after the merge, `RATIO` and `STATUS` (app.py lines
737-748): `RATIO = SALARY / SALARY_NATIONAL * 100` with no zero guard. -/
def df_ratio (df : List Row) (sel : List String) (lo hi : ℤ) : List RatioRow :=
  (leftMergeNational (gapBase df sel lo hi) (df_national df lo hi)).map
    (fun m =>
      let x := ((FVal.fin m.salary).div (natOfOpt m.nat)).mul (.fin 100)
      ⟨m.region, m.year, m.salary, m.nat, x, ratStatus x⟩)

/-! ### Heatmap aggregation (app.py lines 540-554) -/

/-- `heatmap_regions`, app.py lines 540-542. -/
def heatRegions (sel : List String) (flag : Bool) : List String :=
  sel ++ (if flag then ["INDONESIA"] else [])

/-- `df_heat`, app.py line 544. -/
def df_heat (df : List Row) (lo hi : ℤ) (sel : List String) (flag : Bool) :
    List Row :=
  (df_year df lo hi).filter (fun r => (heatRegions sel flag).contains r.region)

/-- The streaming mean of `pivot_table(aggfunc="mean")`: accumulate a sum
and a count, `none` (a `NaN` cell) when the group is empty. -/
def aggMean (xs : List ℚ) : Option ℚ :=
  let p := xs.foldl (fun (sc : ℚ × ℕ) x => (sc.1 + x, sc.2 + 1)) ((0 : ℚ), (0 : ℕ))
  if p.2 = 0 then none else some (p.1 / (p.2 : ℚ))

/-- One cell of `heat_data` (app.py lines 549-554): the mean salary over
the rows matching the (region, year) pair, with `fillna(0)` turning an
empty cell into `0`. -/
def heatCell (dfh : List Row) (reg : String) (y : ℤ) : ℚ :=
  match aggMean ((dfh.filter (fun r => r.region == reg && r.year == some y)).map (·.salary)) with
  | none => 0
  | some m => m

/-- The spec's words: the arithmetic mean, `sum / length`. -/
def arithMean (xs : List ℚ) : ℚ := xs.sum / (xs.length : ℚ)

/-! ### Script-level control flow (empty-input handling)

`runScript` models the top-to-bottom control flow of `app.py` that decides
whether a rerun with a given filter selection completes, stops cleanly, or
raises.  The stages embedded are the ones the claims cite: the year filter
and its `st.stop()` guard (lines 115-117), the actual-value ranking guard
(lines 261-263), the growth section (lines 366-441), and the gap and ratio
sections (lines 579-663 and 731-838).  Two slips in the source are modelled
as errors:

* line 441 reads `pct_df`, which is bound only inside the `else` branch at
  line 384 — when `growth_filtered` is empty the name is undefined and the
  rerun raises `NameError`;
* lines 662/826 rank by the `GAP`/`RATIO` column, which exists only when the
  merge branch ran (both sides non-empty) — ranking a non-empty unmerged
  frame raises `KeyError`; and lines 833-838 read `top_ratio` outside the
  `else` branch at line 825 that binds it, so an empty
  `df_ratio_filtered` raises `NameError`.

Presentation-only stages (KPI cards, the map, chart construction) are
outside the model's scope. -/
def runScript (df : List Row) (lo hi : ℤ) (sel0 : List String)
    (flag : Bool) : Except String Unit :=
  let sel := effectiveSel df sel0
  if (df_year df lo hi).isEmpty then .ok ()            -- line 115: st.stop()
  else if (prov_filtered df sel lo hi).isEmpty then .ok ()   -- line 261: st.stop()
  else if (growth_filtered df lo hi sel flag).isEmpty then
    .error "NameError: name pct_df is not defined"      -- line 441
  else
    let dna := df_national df lo hi
    let base := gapBase df sel lo hi
    -- gap section: when either side is empty the merge is skipped and the
    -- frame has no GAP column; the ranking at line 662 then only runs (and
    -- raises KeyError) if the year-refiltered frame is non-empty.
    if (base.isEmpty || dna.isEmpty) && !(base.filter (yearInB lo hi)).isEmpty then
      .error "KeyError: GAP"                            -- line 662
    else if base.isEmpty || dna.isEmpty then
      -- ratio section under the same emptiness: df_ratio_filtered is empty,
      -- the else at line 825 is skipped, and line 838 reads top_ratio.
      if (base.filter (yearInB lo hi)).isEmpty then
        .error "NameError: name top_ratio is not defined"  -- line 838
      else .error "KeyError: RATIO"                     -- line 826
    else .ok ()

/-! ### Concrete input tables used by the closed theorems -/

/-- C1's failing input: the 2024 national salary is 0 (ratio denominator),
and region B's 2023 salary is 0 (percent-change denominator). -/
def c1df : List Row :=
  [⟨"INDONESIA", some 2024, 0⟩, ⟨"A", some 2024, 100⟩,
   ⟨"B", some 2023, 0⟩, ⟨"B", some 2024, 50⟩]

/-- C2's input: a national row exists for 2023 but not for 2024, while
region A has rows in both years. -/
def c2df : List Row :=
  [⟨"INDONESIA", some 2023, 90⟩, ⟨"A", some 2023, 100⟩, ⟨"A", some 2024, 100⟩]

/-- C3's failing input: province P has data only outside the selected year
range, so selecting P with the national line switched off empties
`growth_filtered` while every earlier stage stays non-empty. -/
def c3df : List Row :=
  [⟨"INDONESIA", some 2024, 3000000⟩, ⟨"Q", some 2024, 100⟩,
   ⟨"P", some 2020, 50⟩]

/-- C4's example region: salaries 100, 110, 121 over three consecutive
years (spec §8, change-metric correctness). -/
def c4df : List Row :=
  [⟨"R", some 2021, 100⟩, ⟨"R", some 2022, 110⟩, ⟨"R", some 2023, 121⟩]

/-- C5's example: region salary 3000000 against national salary 2500000 in
the same year (spec §8, gap/ratio correctness). -/
def c5df : List Row :=
  [⟨"INDONESIA", some 2024, 2500000⟩, ⟨"J", some 2024, 3000000⟩]

/-- C6's example regions with salaries A:5, B:3, C:8, D:1 (spec §8,
ranking correctness). -/
def c6rows : List Row :=
  [⟨"A", some 2024, 5⟩, ⟨"B", some 2024, 3⟩,
   ⟨"C", some 2024, 8⟩, ⟨"D", some 2024, 1⟩]

/-- C8/C9/C10's small concrete table: two provinces and the national rows
over 2023-2024, with a duplicate (A, 2024) pair for the heatmap claim. -/
def c10df : List Row :=
  [⟨"INDONESIA", some 2023, 90⟩, ⟨"INDONESIA", some 2024, 95⟩,
   ⟨"A", some 2023, 80⟩, ⟨"A", some 2024, 100⟩, ⟨"A", some 2024, 200⟩,
   ⟨"B", some 2023, 70⟩]

/-- C3's second failing input: a table holding only national rows, for the
ratio-section crash path. -/
def c3dfNat : List Row := [⟨"INDONESIA", some 2024, 3000000⟩]

/-! ## Helper lemmas

Evaluation lemmas for the `FVal` operations (their defining matches have
overlapping catch-all arms, so these clean per-constructor equations are
what the proofs below rewrite with). -/

theorem FVal.sub_fin_fin (a b : ℚ) : (FVal.fin a).sub (.fin b) = .fin (a - b) := rfl

theorem FVal.sub_fin_nan (a : ℚ) : (FVal.fin a).sub .nan = .nan := rfl

theorem FVal.sub_pinf_fin (b : ℚ) : FVal.pinf.sub (.fin b) = .pinf := rfl

theorem FVal.div_fin_fin (a b : ℚ) : (FVal.fin a).div (.fin b) =
    if b = 0 then (if a = 0 then .nan else if 0 < a then .pinf else .ninf)
    else .fin (a / b) := rfl

theorem FVal.div_fin_nan (a : ℚ) : (FVal.fin a).div .nan = .nan := rfl

theorem FVal.mul_fin_fin (a b : ℚ) : (FVal.fin a).mul (.fin b) = .fin (a * b) := rfl

theorem FVal.mul_pinf_fin (b : ℚ) : FVal.pinf.mul (.fin b) =
    if b = 0 then .nan else if 0 < b then .pinf else .ninf := rfl

theorem FVal.mul_nan_fin (b : ℚ) : FVal.nan.mul (.fin b) = .nan := rfl

theorem FVal.gtb_fin_fin (a b : ℚ) : (FVal.fin a).gtb (.fin b) = decide (b < a) := rfl

theorem FVal.gtb_pinf_fin (b : ℚ) : FVal.pinf.gtb (.fin b) = true := rfl

theorem FVal.gtb_nan (x : FVal) : FVal.nan.gtb x = false := by cases x <;> rfl

theorem FVal.eqb_fin_fin (a b : ℚ) : (FVal.fin a).eqb (.fin b) = decide (a = b) := rfl

theorem FVal.eqb_pinf_fin (b : ℚ) : FVal.pinf.eqb (.fin b) = false := rfl

theorem FVal.eqb_nan (x : FVal) : FVal.nan.eqb x = false := by cases x <;> rfl

theorem FVal.isNan_fin (a : ℚ) : (FVal.fin a).isNan = false := rfl

theorem FVal.isNan_pinf : FVal.pinf.isNan = false := rfl

theorem FVal.isNan_ninf : FVal.ninf.isNan = false := rfl

theorem FVal.isNan_nan : FVal.nan.isNan = true := rfl

theorem FVal.isNan_eq_false_iff (x : FVal) : x.isNan = false ↔ x ≠ FVal.nan := by
  cases x <;> simp [FVal.isNan]

/-- The `STATUS` trichotomy of the gap table on a finite gap value. -/
theorem gapStatus_fin (x : ℚ) : gapStatus (.fin x) =
    if 0 < x then "Above National Average"
    else if x = 0 then "Equal to National Average"
    else "Below National Average" := by
  simp [gapStatus, FVal.gtb_fin_fin, FVal.eqb_fin_fin]

/-- A `NaN` gap is classified "Below National Average" (both float
comparisons are false). -/
theorem gapStatus_nan : gapStatus .nan = "Below National Average" := rfl

/-- The `STATUS` trichotomy of the ratio table on a finite ratio value. -/
theorem ratStatus_fin (x : ℚ) : ratStatus (.fin x) =
    if 100 < x then "Above National Average"
    else if x = 100 then "Equal to National Average"
    else "Below National Average" := by
  simp [ratStatus, FVal.gtb_fin_fin, FVal.eqb_fin_fin]

theorem ratStatus_nan : ratStatus .nan = "Below National Average" := rfl

/-- On a nonzero previous salary, the pandas `pct_change * 100` step equals
the textbook `(cur - prev) / prev * 100`. -/
theorem pandasPct_eq {p : ℚ} (c : ℚ) (hp : p ≠ 0) :
    pandasPct p c = .fin ((c - p) / p * 100) := by
  unfold pandasPct
  rw [FVal.div_fin_fin, if_neg hp, FVal.sub_fin_fin, FVal.mul_fin_fin]
  congr 1
  field_simp

/-- The exact-equality mask and the collapsed range mask agree row by row
(`y = y0` iff `y0 ≤ y ∧ y ≤ y0`, and a `pd.NA` year fails both). -/
theorem yearEqB_eq_yearInB (y : ℤ) (r : Row) : yearEqB y r = yearInB y y r := by
  unfold yearEqB yearInB
  cases r.year with
  | none => rfl
  | some z =>
      have h : (z = y) ↔ (y ≤ z ∧ z ≤ y) := by omega
      simp [h]

/-- Both branches of the year filter compute the inclusive range filter. -/
theorem df_year_eq_filter (df : List Row) (lo hi : ℤ) :
    df_year df lo hi = df.filter (yearInB lo hi) := by
  unfold df_year
  split
  · next h =>
      subst h
      exact List.filter_congr fun r _ => yearEqB_eq_yearInB lo r
  · rfl

/-- Filtering by a pointwise-stronger predicate yields no more rows. -/
theorem filter_length_mono {p q : α → Bool} (h : ∀ x, p x = true → q x = true) :
    ∀ l : List α, (l.filter p).length ≤ (l.filter q).length := by
  intro l
  induction l with
  | nil => exact Nat.le_refl 0
  | cons a t ih =>
      by_cases hp : p a = true
      · rw [List.filter_cons_of_pos hp, List.filter_cons_of_pos (h a hp)]
        exact Nat.succ_le_succ ih
      · rw [List.filter_cons_of_neg hp]
        by_cases hq : q a = true
        · rw [List.filter_cons_of_pos hq]
          exact Nat.le_succ_of_le ih
        · rw [List.filter_cons_of_neg hq]
          exact ih

/-- `firstBestSplit` returns `none` exactly on the empty list. -/
theorem firstBestSplit_eq_none {le : α → α → Bool} :
    ∀ {xs : List α}, firstBestSplit le xs = none → xs = [] := by
  intro xs h
  cases xs with
  | nil => rfl
  | cons a rest =>
      unfold firstBestSplit at h
      cases hr : firstBestSplit le rest <;> rw [hr] at h
      · simp at h
      · next p =>
          cases p with
          | mk m rem => by_cases hle : le a m = true <;> simp [hle] at h

/-- The stable sort puts the earliest best element first, followed by the
sort of the remainder: the selection step and the sort agree. -/
theorem iSort_split {le : α → α → Bool} :
    ∀ {xs : List α} {m : α} {rem : List α},
      firstBestSplit le xs = some (m, rem) → iSort le xs = m :: iSort le rem := by
  intro xs
  induction xs with
  | nil => intro m rem h; simp [firstBestSplit] at h
  | cons a rest ih =>
      intro m rem h
      unfold firstBestSplit at h
      cases hr : firstBestSplit le rest with
      | none =>
          have hnil : rest = [] := firstBestSplit_eq_none hr
          subst hnil
          simp only [hr] at h
          obtain ⟨rfl, rfl⟩ := Prod.mk.injEq .. ▸ Option.some.injEq .. ▸ h
          rfl
      | some p =>
          cases p with
          | mk m' rem' =>
              simp only [hr] at h
              by_cases hle : le a m' = true
              · rw [if_pos hle] at h
                obtain ⟨rfl, rfl⟩ := Prod.mk.injEq .. ▸ Option.some.injEq .. ▸ h
                show oInsert le a (iSort le rest) = a :: iSort le rest
                rw [ih hr, oInsert, if_pos hle]
              · rw [if_neg hle] at h
                obtain ⟨rfl, rfl⟩ := Prod.mk.injEq .. ▸ Option.some.injEq .. ▸ h
                show oInsert le a (iSort le rest) = m' :: iSort le (a :: rem')
                rw [ih hr, oInsert, if_neg hle]
                rfl

/-- Repeated best-first selection of `n` elements equals sorting and taking
the first `n`. -/
theorem takeBest_eq_take_iSort (le : α → α → Bool) :
    ∀ (n : ℕ) (xs : List α), takeBest le n xs = (iSort le xs).take n := by
  intro n
  induction n with
  | zero => intro xs; rfl
  | succ k ih =>
      intro xs
      cases hs : firstBestSplit le xs with
      | none =>
          have hnil : xs = [] := firstBestSplit_eq_none hs
          subst hnil
          rfl
      | some p =>
          cases p with
          | mk m rem =>
              rw [iSort_split hs]
              show (match firstBestSplit le xs with
                    | none => []
                    | some (m, rem) => m :: takeBest le k rem) =
                  (m :: iSort le rem).take (k + 1)
              simp only [hs]
              rw [List.take_succ_cons, ih]

/-- A left row with no matching national year survives the left merge as a
single row with a missing national salary. -/
theorem leftMergeNational_unmatched {left nat : List Row} {r : Row}
    (hr : r ∈ left) (hm : nat.filter (fun n => n.year == r.year) = []) :
    (⟨r.region, r.year, r.salary, none⟩ : MRow) ∈ leftMergeNational left nat := by
  unfold leftMergeNational
  refine List.mem_flatMap.mpr ⟨r, hr, ?_⟩
  simp [hm]

/-- The first row of a `groupby` group receives `NaN` for both change
metrics. -/
theorem groupMetrics_head (g : GRow) (gs : List GRow) :
    (groupMetrics none (g :: gs)).head? = some ⟨g.region, g.year, g.salary, .nan, .nan⟩ := rfl

/-- Adjacent rows of a metrics group: each row after the first carries the
difference against its predecessor's salary, and — when that predecessor
salary is nonzero — the percent change `(cur - prev) / prev * 100`. -/
theorem groupMetrics_chain (prev : Option ℚ) (gs : List GRow) :
    List.Chain'
      (fun a b => b.nom = .fin (b.salary - a.salary) ∧
        (a.salary ≠ 0 → b.pct = .fin ((b.salary - a.salary) / a.salary * 100)))
      (groupMetrics prev gs) := by
  induction gs generalizing prev with
  | nil => cases prev <;> exact List.chain'_nil
  | cons g rest ih =>
      have hhead : ∀ y ∈ (groupMetrics (some g.salary) rest).head?,
          y.nom = FVal.fin (y.salary - g.salary) ∧
            (g.salary ≠ 0 → y.pct = FVal.fin ((y.salary - g.salary) / g.salary * 100)) := by
        intro y hy
        cases rest with
        | nil => simp [groupMetrics] at hy
        | cons h t =>
            simp only [groupMetrics, List.head?_cons, Option.mem_def,
              Option.some.injEq] at hy
            subst hy
            exact ⟨rfl, fun hz => pandasPct_eq h.salary hz⟩
      cases prev with
      | none => exact List.chain'_cons'.mpr ⟨hhead, ih (some g.salary)⟩
      | some p => exact List.chain'_cons'.mpr ⟨hhead, ih (some g.salary)⟩

/-- Rows of `pct_df` survived `dropna`: neither change metric is `NaN`. -/
theorem pct_df_no_nan {df : List Row} {lo hi : ℤ} {sel : List String}
    {flag : Bool} {g : GrowthRow} (h : g ∈ pct_df df lo hi sel flag) :
    g.pct ≠ FVal.nan ∧ g.nom ≠ FVal.nan := by
  obtain ⟨-, hpred⟩ := List.mem_filter.mp h
  simp only [Bool.and_eq_true, Bool.not_eq_true'] at hpred
  exact ⟨(FVal.isNan_eq_false_iff _).mp hpred.1.2, (FVal.isNan_eq_false_iff _).mp hpred.2⟩

/-- The sum/count fold underlying `aggMean`. -/
theorem foldl_sum_count (xs : List ℚ) : ∀ (s : ℚ) (c : ℕ),
    xs.foldl (fun (sc : ℚ × ℕ) x => (sc.1 + x, sc.2 + 1)) (s, c) =
      (s + xs.sum, c + xs.length) := by
  induction xs with
  | nil => intro s c; simp
  | cons a t ih =>
      intro s c
      rw [List.foldl_cons, ih, List.sum_cons, List.length_cons]
      refine Prod.ext ?_ ?_
      · show s + a + t.sum = s + (a + t.sum)
        ring
      · show c + 1 + t.length = c + (t.length + 1)
        omega

/-- The streaming mean equals `sum / length` on a non-empty list, and is a
missing value on the empty one. -/
theorem aggMean_eq (xs : List ℚ) :
    aggMean xs = if xs.isEmpty then none else some (arithMean xs) := by
  unfold aggMean arithMean
  rw [foldl_sum_count]
  cases xs with
  | nil => simp
  | cons a t => simp

/-- A non-empty selection is its own effective selection (the
empty-means-all default does not fire). -/
theorem effectiveSel_of_ne {df : List Row} {sel : List String} (h : sel ≠ []) :
    effectiveSel df sel = sel := by
  cases sel with
  | nil => exact absurd rfl h
  | cons a t => rfl

/-- A gap row whose merge found a national salary `q` carries
`GAP = salary - q` and the status classification of that gap. -/
theorem df_gap_matched {df : List Row} {sel : List String} {lo hi : ℤ}
    {gr : GapRow} (h : gr ∈ df_gap df sel lo hi) {q : ℚ} (hq : gr.nat = some q) :
    gr.gap = FVal.fin (gr.salary - q) ∧
    gr.status = gapStatus (FVal.fin (gr.salary - q)) := by
  unfold df_gap at h
  obtain ⟨m, hm, rfl⟩ := List.mem_map.mp h
  simp only at hq
  rw [hq] at *
  refine ⟨?_, ?_⟩ <;>
    simp [natOfOpt, hq, FVal.sub_fin_fin]

/-- A ratio row whose merge found a nonzero national salary `q` carries
`RATIO = salary / q * 100` and the status classification of that ratio. -/
theorem df_ratio_matched {df : List Row} {sel : List String} {lo hi : ℤ}
    {rr : RatioRow} (h : rr ∈ df_ratio df sel lo hi) {q : ℚ}
    (hq : rr.nat = some q) (hqz : q ≠ 0) :
    rr.ratioVal = FVal.fin (rr.salary / q * 100) ∧
    rr.status = ratStatus (FVal.fin (rr.salary / q * 100)) := by
  unfold df_ratio at h
  obtain ⟨m, hm, rfl⟩ := List.mem_map.mp h
  simp only at hq
  rw [hq] at *
  refine ⟨?_, ?_⟩ <;>
    simp [natOfOpt, hq, FVal.div_fin_fin, hqz, FVal.mul_fin_fin]

/-! ## Claim theorems -/

/-- C7: for every table and every year `y`, the exact-year equality branch
taken when `yearFrom == yearTo == y` (app.py line 102) yields exactly the
same row set as the generic inclusive range filter over `[y, y]`
(app.py line 104) — both boundaries inclusive in both directions. -/
theorem c7_exact_year_eq_range (df : List Row) (y : ℤ) :
    df_year df y y = df.filter (yearInB y y) :=
  df_year_eq_filter df y y

/-- C8: shrinking the year range to a sub-interval, or shrinking a
non-empty region selection to a non-empty subset, never increases the row
count of the year-filtered table (`df_year`), the national sub-table
(`df_national`), or the province sub-table (`df_prov`).  The non-emptiness
hypotheses are needed because an empty selection means "all provinces"
(app.py lines 109-110). -/
theorem c8_filter_monotone (df : List Row) (lo hi lo' hi' : ℤ)
    (sel sel' : List String)
    (h1 : lo ≤ lo') (h2 : lo' ≤ hi') (h3 : hi' ≤ hi)
    (h4 : sel ≠ []) (h5 : sel' ≠ []) (h6 : ∀ s ∈ sel', s ∈ sel) :
    (df_year df lo' hi').length ≤ (df_year df lo hi).length ∧
    (df_national df lo' hi').length ≤ (df_national df lo hi).length ∧
    (df_prov df lo' hi' sel').length ≤ (df_prov df lo hi sel).length := by
  have hyr : ∀ r : Row, yearInB lo' hi' r = true → yearInB lo hi r = true := by
    intro r h
    unfold yearInB at h ⊢
    cases hy : r.year with
    | none => simp [hy] at h
    | some z =>
        simp only [hy, Bool.and_eq_true, decide_eq_true_eq] at h ⊢
        omega
  have hsel : ∀ r : Row, sel'.contains r.region = true → sel.contains r.region = true := by
    intro r h
    rw [List.contains_iff_exists_mem_beq] at h ⊢
    obtain ⟨a, ha, hba⟩ := h
    exact ⟨a, h6 _ ha, hba⟩
  refine ⟨?_, ?_, ?_⟩
  · rw [df_year_eq_filter, df_year_eq_filter]
    exact filter_length_mono hyr df
  · unfold df_national
    rw [df_year_eq_filter, df_year_eq_filter, List.filter_filter, List.filter_filter]
    refine filter_length_mono ?_ df
    intro r h
    simp only [Bool.and_eq_true] at h ⊢
    exact ⟨h.1, hyr r h.2⟩
  · unfold df_prov
    rw [effectiveSel_of_ne h4, effectiveSel_of_ne h5,
      df_year_eq_filter, df_year_eq_filter, List.filter_filter, List.filter_filter,
      List.filter_filter, List.filter_filter]
    refine filter_length_mono ?_ df
    intro r h
    simp only [Bool.and_eq_true] at h ⊢
    exact ⟨⟨h.1.1, hsel r h.1.2⟩, hyr r h.2⟩

/-- C9: every national row (region exactly "INDONESIA") inside the year
range belongs to `prov_filtered`, the input of the Top/Bottom-N by actual
value ranking, for every selection — `prov_filtered` (app.py lines 255-259)
appends `"INDONESIA"` to the selection unconditionally and takes no
`include_indonesia` parameter; in this embedding the flag is an input only
of `growth_filtered` (line 370) and `heatRegions`/`df_heat` (line 541). -/
theorem c9_ranking_includes_national (df : List Row) (sel : List String)
    (lo hi : ℤ) (r : Row) (hr : r ∈ df) (hnat : r.region = "INDONESIA")
    (hyr : yearInB lo hi r = true) : r ∈ prov_filtered df sel lo hi := by
  unfold prov_filtered
  refine List.mem_filter.mpr ⟨hr, ?_⟩
  simp [hyr, hnat]

/-- C8 witness: narrowing `c10df`'s range from [2023, 2024] to
[2024, 2024] and the selection from [A, B] to [A]. -/
theorem c8_witness :
    (df_year c10df 2024 2024).length ≤ (df_year c10df 2023 2024).length ∧
    (df_national c10df 2024 2024).length ≤ (df_national c10df 2023 2024).length ∧
    (df_prov c10df 2024 2024 ["A"]).length ≤ (df_prov c10df 2023 2024 ["A", "B"]).length :=
  c8_filter_monotone c10df 2023 2024 2024 2024 ["A", "B"] ["A"]
    (by decide) (by decide) (by decide) (by simp) (by simp)
    (by intro s hs; simp at hs; simp [hs])

/-- C9 witness: the 2024 national row of `c10df` is in the ranking input
even though "INDONESIA" is not in the selection. -/
theorem c9_witness :
    (⟨"INDONESIA", some 2024, 95⟩ : Row) ∈ prov_filtered c10df ["A", "B"] 2023 2024 :=
  c9_ranking_includes_national c10df ["A", "B"] 2023 2024 _
    (by simp [c10df]) rfl (by decide)

/-- C6: the top-N ranking (`nlargest`, modelled as repeated extraction of
the earliest maximal row) returns the first N rows of the stable descending
sort of the salary column, the bottom-N ranking the first N rows of the
stable ascending sort; on regions with salaries A:5, B:3, C:8, D:1, top-2
is [C, A] and bottom-2 is [D, B]. -/
theorem c6_ranking_sort_take :
    (∀ (n : ℕ) (xs : List Row),
        nlargestRows n xs = (iSort salDescLe xs).take n ∧
        nsmallestRows n xs = (iSort salAscLe xs).take n) ∧
    (nlargestRows 2 c6rows).map (·.region) = ["C", "A"] ∧
    (nsmallestRows 2 c6rows).map (·.region) = ["D", "B"] := by
  refine ⟨fun n xs => ⟨takeBest_eq_take_iSort _ n xs, takeBest_eq_take_iSort _ n xs⟩, ?_, ?_⟩ <;>
  · simp [nlargestRows, nsmallestRows, takeBest, firstBestSplit, salDescLe, salAscLe, c6rows]
    norm_num [firstBestSplit, salDescLe, salAscLe]

/-- C4: within each region group (sorted by year), every row after the
first carries `NominalChange = salary[t] - salary[t-1]`, and — whenever the
prior salary is nonzero — `PercentChange = (salary[t] - salary[t-1]) /
salary[t-1] * 100`; the first row of a group gets `NaN` metrics and rows
with `NaN` metrics are dropped from the growth output `pct_df`; the spec's
example region with salaries [100, 110, 121] yields nominal changes
[10, 11] and percent changes [10, 10]. -/
theorem c4_change_metrics :
    (∀ (prev : Option ℚ) (gs : List GRow),
        List.Chain'
          (fun a b => b.nom = FVal.fin (b.salary - a.salary) ∧
            (a.salary ≠ 0 → b.pct = FVal.fin ((b.salary - a.salary) / a.salary * 100)))
          (groupMetrics prev gs)) ∧
    (∀ (g : GRow) (gs : List GRow),
        (groupMetrics none (g :: gs)).head? =
          some ⟨g.region, g.year, g.salary, .nan, .nan⟩) ∧
    (∀ (df : List Row) (lo hi : ℤ) (sel : List String) (flag : Bool)
        (g : GrowthRow), g ∈ pct_df df lo hi sel flag →
          g.pct ≠ FVal.nan ∧ g.nom ≠ FVal.nan) ∧
    pct_df c4df 2021 2023 ["R"] false =
      [⟨"R", 2022, 110, .fin 10, .fin 10⟩, ⟨"R", 2023, 121, .fin 10, .fin 11⟩] := by
  refine ⟨groupMetrics_chain, fun g gs => groupMetrics_head g gs,
    fun _ _ _ _ _ _ h => pct_df_no_nan h, ?_⟩
  simp [pct_df, growthTable, gRows, growth_filtered, c4df, yearEqB, yearInB, regionsIn,
    iSort, oInsert, gLe, groupMetrics, pandasPct, dedupAux, FVal.div_fin_fin,
    FVal.sub_fin_fin, FVal.mul_fin_fin, FVal.isNan_fin, FVal.isNan_nan]
  norm_num

/-- C4 witness: the [100, 110, 121] region's 2022 row is in the growth
output with non-`NaN` metrics. -/
theorem c4_witness :
    (⟨"R", 2022, 110, FVal.fin 10, FVal.fin 10⟩ : GrowthRow).pct ≠ FVal.nan ∧
    (⟨"R", 2022, 110, FVal.fin 10, FVal.fin 10⟩ : GrowthRow).nom ≠ FVal.nan :=
  c4_change_metrics.2.2.1 c4df 2021 2023 ["R"] false _
    (by rw [c4_change_metrics.2.2.2]; simp)

/-- C5: a region row matched with its same-year national salary `q` gets
`Gap = salary - q` with the three-way status classification at threshold 0,
and `Ratio = salary / q * 100` with the same classification at threshold
100.  (The code's status strings are "Above National Average", "Equal to
National Average" and "Below National Average".) -/
theorem c5_gap_ratio_formulas (df : List Row) (sel : List String) (lo hi : ℤ) :
    (∀ gr ∈ df_gap df sel lo hi, ∀ q : ℚ, gr.nat = some q →
        gr.gap = FVal.fin (gr.salary - q) ∧
        (0 < gr.salary - q → gr.status = "Above National Average") ∧
        (gr.salary - q = 0 → gr.status = "Equal to National Average") ∧
        (gr.salary - q < 0 → gr.status = "Below National Average")) ∧
    (∀ rr ∈ df_ratio df sel lo hi, ∀ q : ℚ, rr.nat = some q → q ≠ 0 →
        rr.ratioVal = FVal.fin (rr.salary / q * 100) ∧
        (100 < rr.salary / q * 100 → rr.status = "Above National Average") ∧
        (rr.salary / q * 100 = 100 → rr.status = "Equal to National Average") ∧
        (rr.salary / q * 100 < 100 → rr.status = "Below National Average")) := by
  constructor
  · intro gr hgr q hq
    obtain ⟨hgap, hst⟩ := df_gap_matched hgr hq
    rw [hst, gapStatus_fin]
    refine ⟨hgap, ?_, ?_, ?_⟩
    · intro h0; rw [if_pos h0]
    · intro h0; rw [if_neg (by linarith), if_pos h0]
    · intro h0; rw [if_neg (by linarith), if_neg (by linarith)]
  · intro rr hrr q hq hqz
    obtain ⟨hrat, hst⟩ := df_ratio_matched hrr hq hqz
    rw [hst, ratStatus_fin]
    refine ⟨hrat, ?_, ?_, ?_⟩
    · intro h0; rw [if_pos h0]
    · intro h0; rw [if_neg (by linarith), if_pos h0]
    · intro h0; rw [if_neg (by linarith), if_neg (by linarith)]

/-- C5 witness: region salary 3000000 against national salary 2500000 in
the same year gives Gap 500000 and Ratio 120, both "above average". -/
theorem c5_witness :
    (∃ gr ∈ df_gap c5df ["J"] 2024 2024, gr.nat = some 2500000 ∧
      gr.gap = FVal.fin 500000 ∧ gr.status = "Above National Average") ∧
    (∃ rr ∈ df_ratio c5df ["J"] 2024 2024, rr.nat = some 2500000 ∧
      rr.ratioVal = FVal.fin 120 ∧ rr.status = "Above National Average") := by
  have hgmem : (⟨"J", some 2024, 3000000, some 2500000, FVal.fin 500000,
      "Above National Average"⟩ : GapRow) ∈ df_gap c5df ["J"] 2024 2024 := by
    simp [df_gap, leftMergeNational, gapBase, df_year, df_national, c5df, yearEqB,
      yearInB, isNational, natOfOpt, gapStatus, FVal.sub_fin_fin, FVal.gtb_fin_fin,
      FVal.eqb_fin_fin,
      (by decide : upStr "INDONESIA" = "INDONESIA"), (by decide : upStr "J" = "J")]
    norm_num
  have hrmem : (⟨"J", some 2024, 3000000, some 2500000, FVal.fin 120,
      "Above National Average"⟩ : RatioRow) ∈ df_ratio c5df ["J"] 2024 2024 := by
    simp [df_ratio, leftMergeNational, gapBase, df_year, df_national, c5df, yearEqB,
      yearInB, isNational, natOfOpt, ratStatus, FVal.div_fin_fin, FVal.mul_fin_fin,
      FVal.gtb_fin_fin, FVal.eqb_fin_fin,
      (by decide : upStr "INDONESIA" = "INDONESIA"), (by decide : upStr "J" = "J")]
    norm_num
  constructor
  · have h := (c5_gap_ratio_formulas c5df ["J"] 2024 2024).1 _ hgmem 2500000 rfl
    exact ⟨_, hgmem, rfl, by rw [h.1]; norm_num, h.2.1 (by norm_num)⟩
  · have h := (c5_gap_ratio_formulas c5df ["J"] 2024 2024).2 _ hrmem 2500000 rfl
      (by norm_num)
    exact ⟨_, hrmem, rfl, by rw [h.1]; norm_num, h.2.1 (by norm_num)⟩

/-- C2 counterexample: in `c2df` the region row (A, 2024) has no same-year
national row, yet it is NOT excluded — the left merge keeps it with a
missing national salary, a `NaN` gap/ratio, and the status lambda
classifies the `NaN` as "Below National Average" in both output tables. -/
theorem c2_counterexample :
    (⟨"A", some 2024, 100, none, FVal.nan, "Below National Average"⟩ : GapRow) ∈
      df_gap c2df ["A"] 2023 2024 ∧
    (⟨"A", some 2024, 100, none, FVal.nan, "Below National Average"⟩ : RatioRow) ∈
      df_ratio c2df ["A"] 2023 2024 := by
  constructor <;>
  · simp [df_gap, df_ratio, leftMergeNational, gapBase, df_year, df_national, c2df,
      yearEqB, yearInB, isNational, natOfOpt, gapStatus, ratStatus, FVal.sub_fin_fin,
      FVal.sub_fin_nan, FVal.div_fin_nan, FVal.mul_nan_fin, FVal.gtb_fin_fin,
      FVal.gtb_nan, FVal.eqb_fin_fin, FVal.eqb_nan,
      (by decide : upStr "INDONESIA" = "INDONESIA"), (by decide : upStr "A" = "A")]

/-- C2 amended: a region row of the selected/year-filtered base with no
same-year national row is retained by the left merge (`how="left"`,
app.py lines 585-590 and 737-742): it appears in both the gap and the
ratio table with a missing national salary, `NaN` gap/ratio and status
"Below National Average" — it is not excluded. -/
theorem c2_left_join_keeps_unmatched (df : List Row) (sel : List String)
    (lo hi : ℤ) (r : Row) (hr : r ∈ gapBase df sel lo hi)
    (hm : (df_national df lo hi).filter (fun n => n.year == r.year) = []) :
    (⟨r.region, r.year, r.salary, none, FVal.nan, "Below National Average"⟩ : GapRow) ∈
      df_gap df sel lo hi ∧
    (⟨r.region, r.year, r.salary, none, FVal.nan, "Below National Average"⟩ : RatioRow) ∈
      df_ratio df sel lo hi := by
  have hmem := leftMergeNational_unmatched hr hm
  constructor
  · unfold df_gap
    exact List.mem_map.mpr ⟨_, hmem, rfl⟩
  · unfold df_ratio
    exact List.mem_map.mpr ⟨_, hmem, rfl⟩

/-- C2 witness: the amended behaviour at the concrete input `c2df`. -/
theorem c2_witness :
    (⟨"A", some 2024, 100, none, FVal.nan, "Below National Average"⟩ : GapRow) ∈
      df_gap c2df ["A"] 2023 2024 := by
  refine (c2_left_join_keeps_unmatched c2df ["A"] 2023 2024 ⟨"A", some 2024, 100⟩
    ?_ ?_).1
  · simp [gapBase, df_year, c2df, yearInB]
  · simp [df_national, df_year, c2df, yearInB, isNational,
      (by decide : upStr "INDONESIA" = "INDONESIA"), (by decide : upStr "A" = "A")]

/-- C1 counterexample: with a zero 2024 national salary and a zero 2023
salary for region B, the ratio table carries `+inf` in its `RATIO` column
(the data behind the ratio chart and rankings) and the growth output
`pct_df` carries `+inf` in `PCT_CHANGE` (the data behind the growth chart
and rankings) — the divisions are not guarded. -/
theorem c1_counterexample :
    FVal.pinf ∈ (df_ratio c1df ["A", "B"] 2024 2024).map (·.ratioVal) ∧
    FVal.pinf ∈ (pct_df c1df 2024 2024 ["A", "B"] false).map (·.pct) := by
  constructor
  · simp [df_ratio, leftMergeNational, gapBase, df_year, df_national, c1df, yearEqB,
      yearInB, isNational, natOfOpt, ratStatus, FVal.div_fin_fin, FVal.mul_pinf_fin,
      FVal.mul_fin_fin, FVal.gtb_pinf_fin,
      (by decide : upStr "INDONESIA" = "INDONESIA"), (by decide : upStr "A" = "A"),
      (by decide : upStr "B" = "B")]
  · simp [pct_df, growthTable, gRows, growth_filtered, c1df, yearEqB, yearInB, regionsIn,
      iSort, oInsert, gLe, groupMetrics, pandasPct, dedupAux, FVal.div_fin_fin,
      FVal.sub_pinf_fin, FVal.sub_fin_fin, FVal.mul_pinf_fin, FVal.mul_fin_fin,
      FVal.isNan_fin, FVal.isNan_pinf, FVal.isNan_nan]

/-- C1 amended: the ratio and percent-change divisions carry no zero
guard; what holds is that the computed values are finite whenever the
denominator is nonzero — a nonzero prior salary gives the finite
`(cur - prev) / prev * 100`, and a matched nonzero national salary gives
the finite `salary / national * 100` (with a zero denominator an
`inf`/`NaN` value is produced and propagates, see the counterexample). -/
theorem c1_division_unguarded :
    (∀ (p c : ℚ), p ≠ 0 → pandasPct p c = FVal.fin ((c - p) / p * 100)) ∧
    (∀ (df : List Row) (sel : List String) (lo hi : ℤ),
      ∀ rr ∈ df_ratio df sel lo hi, ∀ q : ℚ, rr.nat = some q → q ≠ 0 →
        rr.ratioVal = FVal.fin (rr.salary / q * 100)) := by
  refine ⟨fun p c hp => pandasPct_eq c hp, ?_⟩
  intro df sel lo hi rr hrr q hq hqz
  exact (df_ratio_matched hrr hq hqz).1

/-- C1 witness: the non-zero-denominator branch at concrete inputs —
`pct_change` on 100 → 110 is exactly 10%, and the `c5df` ratio row is the
finite 120. -/
theorem c1_witness :
    pandasPct 100 110 = FVal.fin 10 ∧
    (∃ rr ∈ df_ratio c5df ["J"] 2024 2024, rr.ratioVal = FVal.fin 120) := by
  constructor
  · have h := c1_division_unguarded.1 100 110 (by norm_num)
    rw [h]
    norm_num
  · have hrmem : (⟨"J", some 2024, 3000000, some 2500000, FVal.fin 120,
        "Above National Average"⟩ : RatioRow) ∈ df_ratio c5df ["J"] 2024 2024 := by
      simp [df_ratio, leftMergeNational, gapBase, df_year, df_national, c5df, yearEqB,
        yearInB, isNational, natOfOpt, ratStatus, FVal.div_fin_fin, FVal.mul_fin_fin,
        FVal.gtb_fin_fin, FVal.eqb_fin_fin,
        (by decide : upStr "INDONESIA" = "INDONESIA"), (by decide : upStr "J" = "J")]
      norm_num
    have h := c1_division_unguarded.2 c5df ["J"] 2024 2024 _ hrmem 2500000 rfl
      (by norm_num)
    exact ⟨_, hrmem, by rw [h]; norm_num⟩

/-- C3 (code bug): an empty filtered table does NOT short-circuit cleanly
everywhere.  On `c3df` (province P selected but P has no data in range)
`growth_filtered` is empty, the `else` at app.py line 384 that binds
`pct_df` is skipped, and line 441 (`prov_filtered = pct_df.copy()`) raises
`NameError`.  On `c3dfNat` (no provincial rows at all) the ratio section's
`else` at line 825 that binds `top_ratio` is skipped, and the dedented
line 838 (`top_ratio.assign(...)`) raises `NameError`. -/
theorem c3_empty_filter_crashes :
    runScript c3df 2024 2024 ["P"] false =
      .error "NameError: name pct_df is not defined" ∧
    runScript c3dfNat 2024 2024 [] true =
      .error "NameError: name top_ratio is not defined" := by
  constructor <;>
  · simp [runScript, effectiveSel, prov_list, dedupAux, df_year, df_national, gapBase,
      prov_filtered, growth_filtered, c3df, c3dfNat, yearEqB, yearInB, isNational,
      (by decide : upStr "INDONESIA" = "INDONESIA"), (by decide : upStr "Q" = "Q"),
      (by decide : upStr "P" = "P")]

/-- C10: a heatmap cell with at least one matching (region, year) record is
the arithmetic mean of all salaries sharing that pair — duplicate pairs are
averaged, as the concrete cell `(A, 2024)` of `c10df` shows: records 100
and 200 give 150, neither rejected nor last-write-wins — and a cell with no
matching record is 0 (`fillna(0)`). -/
theorem c10_heatmap_mean (df : List Row) (lo hi : ℤ) (sel : List String)
    (flag : Bool) (reg : String) (y : ℤ) :
    ((df_heat df lo hi sel flag).filter
        (fun r => r.region == reg && r.year == some y) = [] →
      heatCell (df_heat df lo hi sel flag) reg y = 0) ∧
    ((df_heat df lo hi sel flag).filter
        (fun r => r.region == reg && r.year == some y) ≠ [] →
      heatCell (df_heat df lo hi sel flag) reg y =
        arithMean (((df_heat df lo hi sel flag).filter
          (fun r => r.region == reg && r.year == some y)).map (·.salary))) ∧
    heatCell (df_heat c10df 2023 2024 ["A", "B"] true) "A" 2024 = 150 ∧
    ((df_heat c10df 2023 2024 ["A", "B"] true).filter
        (fun r => r.region == "A" && r.year == some 2024)).map (·.salary) =
      [100, 200] := by
  refine ⟨?_, ?_, ?_, ?_⟩
  · intro h
    unfold heatCell
    rw [h]
    rfl
  · intro h
    unfold heatCell
    rw [aggMean_eq]
    rw [if_neg (by simpa using h)]
  · simp [heatCell, aggMean, df_heat, heatRegions, df_year, c10df, yearEqB, yearInB]
    norm_num
  · simp [df_heat, heatRegions, df_year, c10df, yearEqB, yearInB]

/-- C10 witness: the duplicate-pair cell of `c10df` computed through the
theorem's mean branch. -/
theorem c10_witness :
    heatCell (df_heat c10df 2023 2024 ["A", "B"] true) "A" 2024 =
      arithMean (((df_heat c10df 2023 2024 ["A", "B"] true).filter
        (fun r => r.region == "A" && r.year == some 2024)).map (·.salary)) := by
  refine (c10_heatmap_mean c10df 2023 2024 ["A", "B"] true "A" 2024).2.1 ?_
  simp [df_heat, heatRegions, df_year, c10df, yearEqB, yearInB]

end UMR
